import Mathlib

/-!
Verification development for the credit-card statement extraction pipeline
(`src/components/CreditCardParser.tsx`).

The component's logic is embedded shallowly:

* `Json` / `jsonParse` model the ECMAScript `JSON.parse` platform function on
  the value grammar of ECMA-404 (numbers are kept as their literal text, since
  the component never inspects numeric values).
* `jsonSubstring` models the regex match `openAIResponse.match(/\x7b[\s\S]+\x7d/)`
  (greedy: first `\x7b` to last `\x7d`, at least one character between).
* `parseResponse` is the inline JSON-recovery logic of `parsePDF`
  (lines 106-121).
* `UIState`, `Setter`, `runTrace` model the React `useState` fields and the
  setter calls of the component; `parsePDF`, `handlePasswordSubmit`,
  `handleFileChange` are the corresponding handlers.  The purely cosmetic
  `dragActive` flag is not modelled.
* `viewState` maps the flag state onto the spec's `PipelineState` variant.
-/

namespace CCP

/-- Model of a JavaScript JSON value (ECMA-404). Numeric literals are kept as
their source text: the component never reads a numeric value, only whole
objects, so this loses nothing the code can observe. -/
inductive Json where
  | str : String → Json
  | num : String → Json
  | bool : Bool → Json
  | null : Json
  | arr : List Json → Json
  | obj : List (String × Json) → Json

/-- JSON insignificant whitespace (ECMA-404: space, tab, line feed, carriage
return). -/
def isWsChar (c : Char) : Bool :=
  c == ' ' || c == '\t' || c == '\n' || c == '\r'

/-- Drop leading JSON whitespace. -/
def skipWs : List Char → List Char
  | [] => []
  | c :: cs => if isWsChar c then skipWs cs else c :: cs

/-- Value of a hexadecimal digit, if any. -/
def hexVal (c : Char) : Option Nat :=
  if '0' ≤ c ∧ c ≤ '9' then some (c.toNat - '0'.toNat)
  else if 'a' ≤ c ∧ c ≤ 'f' then some (c.toNat - 'a'.toNat + 10)
  else if 'A' ≤ c ∧ c ≤ 'F' then some (c.toNat - 'A'.toNat + 10)
  else none

/-- Parse the body of a JSON string literal (after the opening quote),
accumulating decoded characters in reverse. Fails on unterminated strings,
bad escapes, or raw control characters, as `JSON.parse` does. -/
def parseStrAux : Nat → List Char → List Char → Option (String × List Char)
  | 0, _, _ => none
  | _ + 1, _, [] => none
  | f + 1, acc, c :: rest =>
    if c == '"' then some (String.mk acc.reverse, rest)
    else if c == '\\' then
      match rest with
      | [] => none
      | e :: rest2 =>
        if e == '"' then parseStrAux f ('"' :: acc) rest2
        else if e == '\\' then parseStrAux f ('\\' :: acc) rest2
        else if e == '/' then parseStrAux f ('/' :: acc) rest2
        else if e == 'b' then parseStrAux f ('\x08' :: acc) rest2
        else if e == 'f' then parseStrAux f ('\x0c' :: acc) rest2
        else if e == 'n' then parseStrAux f ('\n' :: acc) rest2
        else if e == 'r' then parseStrAux f ('\x0d' :: acc) rest2
        else if e == 't' then parseStrAux f ('\t' :: acc) rest2
        else if e == 'u' then
          match rest2 with
          | h1 :: h2 :: h3 :: h4 :: rest3 =>
            match hexVal h1, hexVal h2, hexVal h3, hexVal h4 with
            | some a, some b, some c2, some d =>
              parseStrAux f (Char.ofNat (((a * 16 + b) * 16 + c2) * 16 + d) :: acc) rest3
            | _, _, _, _ => none
          | _ => none
        else none
    else if c.toNat < 32 then none
    else parseStrAux f (c :: acc) rest

/-- Split off a maximal run of leading decimal digits. -/
def takeDigits : List Char → List Char × List Char
  | [] => ([], [])
  | c :: cs =>
    if c.isDigit then
      let (d, r) := takeDigits cs
      (c :: d, r)
    else ([], c :: cs)

/-- Parse an optional JSON fraction part (`.` followed by at least one
digit). -/
def parseFrac : List Char → Option (List Char × List Char)
  | '.' :: t =>
    let (d, r) := takeDigits t
    if d.isEmpty then none else some ('.' :: d, r)
  | cs => some ([], cs)

/-- Parse an optional JSON exponent part (`e`/`E`, optional sign, at least one
digit). -/
def parseExp : List Char → Option (List Char × List Char)
  | [] => some ([], [])
  | c :: t =>
    if c == 'e' || c == 'E' then
      let (sgn, t2) : List Char × List Char :=
        match t with
        | [] => ([], [])
        | s :: t2 => if s == '+' || s == '-' then ([s], t2) else ([], s :: t2)
      let (d, r) := takeDigits t2
      if d.isEmpty then none else some (c :: (sgn ++ d), r)
    else some ([], c :: t)

/-- Parse the unsigned body of a JSON number: integer part (no leading zeros
except `0` itself), optional fraction, optional exponent. -/
def parseNumBody (cs : List Char) : Option (List Char × List Char) :=
  let (intPart, cs2) := takeDigits cs
  if intPart.isEmpty then none
  else if intPart.length > 1 && intPart.head? == some '0' then none
  else
    match parseFrac cs2 with
    | none => none
    | some (fr, cs3) =>
      match parseExp cs3 with
      | none => none
      | some (ex, cs4) => some (intPart ++ fr ++ ex, cs4)

/-- Parse a JSON number (optionally signed), returning its literal text. -/
def parseNum (cs : List Char) : Option (String × List Char) :=
  match cs with
  | '-' :: t =>
    match parseNumBody t with
    | some (l, r) => some (String.mk ('-' :: l), r)
    | none => none
  | _ =>
    match parseNumBody cs with
    | some (l, r) => some (String.mk l, r)
    | none => none

/-- Does `pat` occur at the head of `cs`? -/
def listStarts : List Char → List Char → Bool
  | _, [] => true
  | [], _ :: _ => false
  | a :: as, b :: bs => a == b && listStarts as bs

/-- Expect the literal `lit` at the head of `cs` and drop it. -/
def expectLit (lit : List Char) (cs : List Char) : Option (List Char) :=
  if listStarts cs lit then some (cs.drop lit.length) else none

mutual

/-- Parse one JSON value, fuelled for termination. -/
def parseValue : Nat → List Char → Option (Json × List Char)
  | 0, _ => none
  | f + 1, cs =>
    match skipWs cs with
    | [] => none
    | c :: rest =>
      if c == '"' then
        (parseStrAux (rest.length + 1) [] rest).map (fun p => (Json.str p.1, p.2))
      else if c == '\x7b' then
        match skipWs rest with
        | '\x7d' :: r2 => some (Json.obj [], r2)
        | r2 => (parseMembers f r2).map (fun p => (Json.obj p.1, p.2))
      else if c == '[' then
        match skipWs rest with
        | ']' :: r2 => some (Json.arr [], r2)
        | r2 => (parseElems f r2).map (fun p => (Json.arr p.1, p.2))
      else if c == 't' then
        (expectLit ['r', 'u', 'e'] rest).map (fun r => (Json.bool true, r))
      else if c == 'f' then
        (expectLit ['a', 'l', 's', 'e'] rest).map (fun r => (Json.bool false, r))
      else if c == 'n' then
        (expectLit ['u', 'l', 'l'] rest).map (fun r => (Json.null, r))
      else if c == '-' || c.isDigit then
        (parseNum (c :: rest)).map (fun p => (Json.num p.1, p.2))
      else none

/-- Parse the members of a non-empty JSON object (after the opening brace and
leading whitespace). -/
def parseMembers : Nat → List Char → Option (List (String × Json) × List Char)
  | 0, _ => none
  | f + 1, cs =>
    match skipWs cs with
    | '"' :: rest =>
      match parseStrAux (rest.length + 1) [] rest with
      | none => none
      | some (key, r1) =>
        match skipWs r1 with
        | ':' :: r2 =>
          match parseValue f r2 with
          | none => none
          | some (v, r3) =>
            match skipWs r3 with
            | ',' :: r4 => (parseMembers f r4).map (fun p => ((key, v) :: p.1, p.2))
            | '\x7d' :: r4 => some ([(key, v)], r4)
            | _ => none
        | _ => none
    | _ => none

/-- Parse the elements of a non-empty JSON array (after the opening bracket
and leading whitespace). -/
def parseElems : Nat → List Char → Option (List Json × List Char)
  | 0, _ => none
  | f + 1, cs =>
    match parseValue f cs with
    | none => none
    | some (v, r1) =>
      match skipWs r1 with
      | ',' :: r2 => (parseElems f r2).map (fun p => (v :: p.1, p.2))
      | ']' :: r2 => some ([v], r2)
      | _ => none

end

/-- Model of the platform function `JSON.parse`: parse the whole string as one
JSON value surrounded by optional whitespace; `none` models the thrown
`SyntaxError`. -/
def jsonParse (s : String) : Option Json :=
  match parseValue (s.data.length * 2 + 8) s.data with
  | some (v, rest) => if (skipWs rest).isEmpty then some v else none
  | none => none

/-- Index of the first occurrence of `c`. -/
def firstIdxOf (c : Char) : List Char → Option Nat
  | [] => none
  | a :: as => if a == c then some 0 else (firstIdxOf c as).map (· + 1)

/-- Index of the last occurrence of `c`. -/
def lastIdxOf (c : Char) (cs : List Char) : Option Nat :=
  (firstIdxOf c cs.reverse).map (fun k => cs.length - 1 - k)

/-- Model of `rawText.match(/\x7b[\s\S]+\x7d/)` (line 112): the greedy match
runs from the first `\x7b` to the last `\x7d`, and requires at least one
character between them. -/
def jsonSubstring (s : String) : Option String :=
  match firstIdxOf '\x7b' s.data, lastIdxOf '\x7d' s.data with
  | some i, some j =>
    if i + 2 ≤ j then some (String.mk ((s.data.drop i).take (j - i + 1))) else none
  | _, _ => none

/-- The literal fallback record of lines 113-120: all six fields set to
`"Not Found"`. -/
def defaultRecordJson : Json :=
  Json.obj
    [("issuer", Json.str "Not Found"),
     ("cardLast4", Json.str "Not Found"),
     ("statementPeriod", Json.str "Not Found"),
     ("dueDate", Json.str "Not Found"),
     ("totalBalance", Json.str "Not Found"),
     ("minimumPayment", Json.str "Not Found")]

/-- Modelled from the platform: the message of the `SyntaxError` thrown by
`JSON.parse` on invalid input (engine-specific wording; the component only
ever tests it for the substring `"password"`, which it does not contain). -/
def jsonSyntaxErrorMsg : String := "Unexpected token in JSON"

/-- The inline JSON-recovery logic of `parsePDF` (lines 106-121): try
`JSON.parse` on the whole response; on failure try the regex-extracted brace
block; if there is no block, fall back to the all-`"Not Found"` record.  The
second `JSON.parse` (line 113) is not guarded, so its failure propagates as a
thrown error (`Except.error`). -/
def parseResponse (raw : String) : Except String Json :=
  match jsonParse raw with
  | some v => Except.ok v
  | none =>
    match jsonSubstring raw with
    | some sub =>
      match jsonParse sub with
      | some v => Except.ok v
      | none => Except.error jsonSyntaxErrorMsg
    | none => Except.ok defaultRecordJson

/-- Does the object `j` have a member named `k`? (Reading a missing member in
JavaScript yields `undefined`.) -/
def hasKey (j : Json) (k : String) : Bool :=
  match j with
  | Json.obj kvs => kvs.any (fun kv => kv.1 == k)
  | _ => false

/-- Does `pat` occur as a contiguous substring of `s`? -/
def listHasSub : List Char → List Char → Bool
  | [], pat => pat.isEmpty
  | c :: t, pat => listStarts (c :: t) pat || listHasSub t pat

/-- The credential-error test of line 128:
`err.message?.toLowerCase()?.includes('password')`. -/
def containsPasswordCI (m : String) : Bool :=
  listHasSub (m.data.map Char.toLower) "password".data

/-- The prompt template literal of `callOpenAI` (lines 64-71), verbatim. -/
def buildPrompt (text : String) : String :=
  "\nExtract the following fields in JSON format from the credit card statement text:\nissuer, cardLast4, statementPeriod, dueDate, totalBalance, minimumPayment.\nIf a field cannot be found, use \"Not Found\".\n\nStatement text:\n"
    ++ text ++ "\n"

/-- The fixed error message set on entry to the password prompt (line 131). -/
def pwPromptMsg : String :=
  "This PDF is password protected. Please enter the correct password below."

/-- Environment of the component: the configured API key
(`NEXT_PUBLIC_OPENAI_API_KEY`, absent or empty when unconfigured) and the two
external collaborators.  `extract` models `extractPdfText`'s outcome for a
given file and password (pdf.js decoding; `Except.error` carries the thrown
message, e.g. `"No password given"` / `"Incorrect Password"`); `callAI` models
the `fetch` to the chat-completions endpoint applied to the built prompt
(`Except.error` carries the thrown message, `Except.ok` the first choice's
message content). Files are abstract identifiers. -/
structure Env where
  apiKey : Option String
  extract : Nat → String → Except String String
  callAI : String → Except String String

/-- `callOpenAI` (lines 59-94): throw if the key is missing (falsy), otherwise
build the prompt and perform the request. -/
def callOpenAI (e : Env) (text : String) : Except String String :=
  if e.apiKey.getD "" = "" then
    Except.error "OpenAI API Key is not configured. Set NEXT_PUBLIC_OPENAI_API_KEY in .env"
  else e.callAI (buildPrompt text)

/-- The outcome of the `try` block of `parsePDF` (lines 102-126): extract the
text (the password argument defaults to `''`, line 44), call the model, then
recover a record from the response; a thrown error at any stage aborts the
block. -/
def pipelineOutcome (e : Env) (f : Nat) (pw : Option String) : Except String Json :=
  match e.extract f (pw.getD "") with
  | Except.error m => Except.error m
  | Except.ok text =>
    match callOpenAI e text with
    | Except.error m => Except.error m
    | Except.ok raw => parseResponse raw

/-- The component's `useState` fields (the purely cosmetic `dragActive` is
omitted). -/
structure UIState where
  file : Option Nat
  parsing : Bool
  result : Option Json
  error : String
  password : String
  needsPassword : Bool
  pendingFile : Option Nat

/-- The initial state of the component (lines 26-33). -/
def initialState : UIState :=
  { file := none, parsing := false, result := none, error := "",
    password := "", needsPassword := false, pendingFile := none }

/-- One React state-setter call. -/
inductive Setter where
  | setFile : Option Nat → Setter
  | setParsing : Bool → Setter
  | setResult : Option Json → Setter
  | setError : String → Setter
  | setPassword : String → Setter
  | setNeedsPassword : Bool → Setter
  | setPendingFile : Option Nat → Setter

/-- Apply one setter to the state. -/
def applySetter (st : UIState) : Setter → UIState
  | Setter.setFile v => { st with file := v }
  | Setter.setParsing v => { st with parsing := v }
  | Setter.setResult v => { st with result := v }
  | Setter.setError v => { st with error := v }
  | Setter.setPassword v => { st with password := v }
  | Setter.setNeedsPassword v => { st with needsPassword := v }
  | Setter.setPendingFile v => { st with pendingFile := v }

/-- Run a sequence of setter calls. -/
def runTrace (st : UIState) (tr : List Setter) : UIState :=
  tr.foldl applySetter st

/-- The synchronous head of `parsePDF` (lines 97-100), executed before the
first `await` suspends. -/
def preChunk : List Setter :=
  [Setter.setParsing true, Setter.setError "", Setter.setResult none,
   Setter.setNeedsPassword false]

/-- The completion of `parsePDF` for a resolved try-block outcome: the success
setters (lines 123-126), or the catch handler (lines 127-134), followed by the
`finally` (line 136).  Runs as one synchronous chunk when the pending promise
settles. -/
def finishChunk (f : Nat) (outcome : Except String Json) : List Setter :=
  (match outcome with
   | Except.ok v =>
     [Setter.setResult (some v), Setter.setNeedsPassword false,
      Setter.setPendingFile none, Setter.setPassword ""]
   | Except.error m =>
     if containsPasswordCI m then
       [Setter.setNeedsPassword true, Setter.setPendingFile (some f),
        Setter.setError pwPromptMsg]
     else
       [Setter.setError (if m = "" then "Failed to parse PDF" else m)])
  ++ [Setter.setParsing false]

/-- `parsePDF` (lines 96-138), run to completion: the synchronous head, then
the completion chunk for the try-block's outcome. -/
def parsePDF (e : Env) (f : Nat) (pw : Option String) (st : UIState) : UIState :=
  runTrace st (preChunk ++ finishChunk f (pipelineOutcome e f pw))

/-- `handleFileChange` (lines 167-174): record the file, clear the password,
and start the pipeline with no password. -/
def handleFileChange (e : Env) (f : Nat) (st : UIState) : UIState :=
  parsePDF e f none { st with file := some f, password := "" }

/-- `handlePasswordSubmit` (lines 176-181): if a file is pending and the
password field is non-empty (truthy), re-run the pipeline on the retained file
with the supplied password. -/
def handlePasswordSubmit (e : Env) (st : UIState) : UIState :=
  match st.pendingFile with
  | some f => if st.password ≠ "" then parsePDF e f (some st.password) st else st
  | none => st

/-- The spec's `PipelineState` variant (§3, §4.4). -/
inductive PipelineState where
  | Idle
  | Extracting
  | AwaitingCredential
  | Succeeded
  | Failed
deriving DecidableEq, Repr

/-- The spec's re-architecture reading of the flag state (§9): in-flight means
`Extracting`; the password prompt means `AwaitingCredential`; a published
record means `Succeeded`; an error message means `Failed`; otherwise `Idle`. -/
def viewState (st : UIState) : PipelineState :=
  if st.parsing then PipelineState.Extracting
  else if st.needsPassword then PipelineState.AwaitingCredential
  else if st.result.isSome then PipelineState.Succeeded
  else if st.error ≠ "" then PipelineState.Failed
  else PipelineState.Idle

/-- JavaScript `Array.prototype.join(sep)`: elements concatenated with `sep`
between consecutive elements, empty for the empty array. -/
def joinWith (sep : String) : List String → String
  | [] => ""
  | [x] => x
  | x :: y :: rest => x ++ sep ++ joinWith sep (y :: rest)

/-- Page-text decoding of `extractPdfText` (lines 47-56): a document is a list
of pages, a page its list of text items; each of the first
`min(numPages, 3)` pages contributes its items joined by spaces
(`items.map(i => i.str).join(' ')`), appended to the accumulator followed by a
newline (`out += pageText + '\n'`). -/
def extractPdfText (pages : List (List String)) : String :=
  ((pages.take 3).map (fun its => joinWith " " its ++ "\n")).foldl
    (fun acc p => acc ++ p) ""

/-- Stated from the claim's words (C9), for comparison with `extractPdfText`:
the first three pages' texts concatenated in page order with a page-break
separator *between* pages. -/
def specSeparatorJoin (pages : List (List String)) : String :=
  joinWith "\n" ((pages.take 3).map (fun its => joinWith " " its))

/-- The synchronous steps of a submit via drag-drop (`handleDrop`,
lines 152-165): record the file, then run `parsePDF`'s head up to its first
`await`.  (The drop path carries no `disabled={parsing}` guard, so a second
submit can start while a first is in flight.) -/
def submitChunk (f : Nat) : List Setter :=
  Setter.setFile (some f) :: preChunk

/-- Environment in which the model responds with prose around an invalid
brace block, so that the unguarded second `JSON.parse` (line 113) throws. -/
def envBadJson : Env :=
  { apiKey := some "sk-test",
    extract := fun _ _ => Except.ok "statement text",
    callAI := fun _ => Except.ok "Here is \x7b invalid json \x7d done" }

/-- Environment in which the extractor throws an error whose message is the
empty string. -/
def envEmptyMsg : Env :=
  { apiKey := some "sk-test",
    extract := fun _ _ => Except.error "",
    callAI := fun _ => Except.ok "\x7b\x7d" }

/-- Environment of a password-protected document: pdf.js rejects with
`"No password given"` when no password is supplied and with
`"Incorrect Password"` for any password offered here (all guesses wrong). -/
def envLockedDoc : Env :=
  { apiKey := some "sk-test",
    extract := fun _ p =>
      if p = "" then Except.error "No password given"
      else Except.error "Incorrect Password",
    callAI := fun _ => Except.ok "\x7b\x7d" }

/-- Environment of a password-protected document whose correct password is
`"secret"`: extraction succeeds exactly for it, and the model then answers
with the empty JSON object. -/
def envRetry : Env :=
  { apiKey := some "sk-test",
    extract := fun _ p =>
      if p = "secret" then Except.ok "statement text"
      else Except.error "No password given",
    callAI := fun _ => Except.ok "\x7b\x7d" }

/-- Environment in which the model-client call itself (not the document) fails
with a message mentioning a password. -/
def envBackendPw : Env :=
  { apiKey := some "sk-test",
    extract := fun _ _ => Except.ok "statement text",
    callAI := fun _ => Except.error "backend rejected the supplied PASSWORD token" }

/-- State after submitting the locked document with no password: pdf.js
reports `"No password given"`. -/
def stAfterRequired : UIState := parsePDF envLockedDoc 0 none initialState

/-- State after then submitting the wrong password `"guess"` through the
password form: pdf.js reports `"Incorrect Password"`. -/
def stAfterIncorrect : UIState :=
  handlePasswordSubmit envLockedDoc { stAfterRequired with password := "guess" }

/-- Prose preceding the embedded object in the spec's §8 example response. -/
def prosePre : String := "Here is the data: "

/-- The embedded six-field JSON object of the spec's §8 example response. -/
def chaseObjText : String :=
  "\x7b\"issuer\":\"Chase\",\"cardLast4\":\"1234\",\"statementPeriod\":\"Not Found\",\"dueDate\":\"Not Found\",\"totalBalance\":\"Not Found\",\"minimumPayment\":\"Not Found\"\x7d"

/-- Prose following the embedded object in the spec's §8 example response. -/
def prosePost : String := " Let me know if needed."

/-- The record encoded by `chaseObjText`. -/
def chaseObj : Json :=
  Json.obj
    [("issuer", Json.str "Chase"),
     ("cardLast4", Json.str "1234"),
     ("statementPeriod", Json.str "Not Found"),
     ("dueDate", Json.str "Not Found"),
     ("totalBalance", Json.str "Not Found"),
     ("minimumPayment", Json.str "Not Found")]

/-- A string is its own character data. -/
theorem strMkData (s : String) : String.mk s.data = s := rfl

/-- Appending the empty string on the left is the identity. -/
theorem strEmptyAppend (s : String) : "" ++ s = s := rfl

/-- String concatenation is associative. -/
theorem strAppendAssoc (a b c : String) : a ++ b ++ c = a ++ (b ++ c) := by
  cases a
  cases b
  cases c
  exact congrArg String.mk (List.append_assoc ..)

/-- Character data of a concatenation. -/
theorem strDataAppend (a b : String) : (a ++ b).data = a.data ++ b.data := rfl

/-- C7: `ResponseParser.parse` on the empty string and on the literal string
`"Not Found"` returns the record with all six fields set to `"Not Found"`:
both whole-text `JSON.parse` and the brace-block regex fail, and the
fallback object of lines 113-120 is produced. -/
theorem c7_empty_and_notfound_default :
    parseResponse "" = Except.ok defaultRecordJson ∧
      parseResponse "Not Found" = Except.ok defaultRecordJson :=
  ⟨rfl, rfl⟩

/-- C8: `FieldExtractionPrompt.build` (the template literal of lines 64-71,
embedded as the pure function `buildPrompt`) is deterministic: identical
input text yields identical prompt strings, with no side effects. -/
theorem c8_buildPrompt_deterministic (t₁ t₂ : String) (h : t₁ = t₂) :
    buildPrompt t₁ = buildPrompt t₂ :=
  congrArg buildPrompt h

/-- Witness for C8 at the concrete text `"statement text"`. -/
theorem c8_buildPrompt_deterministic_witness :
    buildPrompt "statement text" = buildPrompt "statement text" :=
  c8_buildPrompt_deterministic "statement text" "statement text" rfl

/-- C2 counterexample: for the model response `'\x7b"issuer":"Chase"\x7d'` —
a valid JSON object containing the subset `issuer` of the six required keys —
the record returned by the parse logic is the basis object itself, and the
key `cardLast4` is absent from it (read as `undefined` by the caller), not
filled with `"Not Found"`.  The claimed key-filling step does not exist in
the code. -/
theorem c2_subset_keys_counterexample :
    parseResponse "\x7b\"issuer\":\"Chase\"\x7d" =
        Except.ok (Json.obj [("issuer", Json.str "Chase")]) ∧
      hasKey (Json.obj [("issuer", Json.str "Chase")]) "cardLast4" = false :=
  ⟨rfl, rfl⟩

/-- C2 amended: whenever whole-text `JSON.parse` succeeds, the parse logic
returns the basis object unchanged — keys present keep their values and keys
absent from the basis object remain absent; no `"Not Found"` filling occurs on
this path (the all-`"Not Found"` record appears only on the fallback path). -/
theorem c2_basis_object_returned_unchanged (raw : String) (v : Json)
    (h : jsonParse raw = some v) : parseResponse raw = Except.ok v := by
  simp [parseResponse, h]

/-- Witness for the amended C2 at a concrete single-key response. -/
theorem c2_basis_object_returned_unchanged_witness :
    parseResponse "\x7b\"dueDate\":\"2024-01-01\"\x7d" =
      Except.ok (Json.obj [("dueDate", Json.str "2024-01-01")]) :=
  c2_basis_object_returned_unchanged "\x7b\"dueDate\":\"2024-01-01\"\x7d"
    (Json.obj [("dueDate", Json.str "2024-01-01")]) rfl

/-- C1 counterexample: with the model responding
`"Here is \x7b invalid json \x7d done"`, whole-text `JSON.parse` fails, the
regex recovers the brace block `"\x7b invalid json \x7d"`, and the unguarded
`JSON.parse` of line 113 throws; the pipeline ends in the `Failed` view with
the JSON syntax error surfaced and no record published — parse is not total
and malformed model output does reach the caller as a pipeline error. -/
theorem c1_malformed_block_fails_pipeline :
    viewState (parsePDF envBadJson 0 none initialState) = PipelineState.Failed ∧
      (parsePDF envBadJson 0 none initialState).result = none ∧
      (parsePDF envBadJson 0 none initialState).error = jsonSyntaxErrorMsg :=
  ⟨rfl, rfl, rfl⟩

/-- C1 amended: the parse logic never fails when the response contains no
regex-matchable brace block (worst case it returns the all-`"Not Found"`
record), and when whole-text parsing succeeds or the extracted block parses it
returns that basis; but when whole-text parsing fails and the extracted brace
block is itself invalid JSON, the parse throws, and the error is surfaced
through the pipeline's generic failure path rather than absorbed. -/
theorem c1_parse_total_unless_invalid_block (raw : String) :
    (jsonParse raw = none → jsonSubstring raw = none →
      parseResponse raw = Except.ok defaultRecordJson) ∧
      (∀ sub : String, jsonParse raw = none → jsonSubstring raw = some sub →
        jsonParse sub = none → parseResponse raw = Except.error jsonSyntaxErrorMsg) := by
  constructor
  · intro h1 h2
    simp [parseResponse, h1, h2]
  · intro sub h1 h2 h3
    simp [parseResponse, h1, h2, h3]

/-- Witness for the amended C1: the default on a brace-free response and the
thrown error on an invalid brace block. -/
theorem c1_parse_total_unless_invalid_block_witness :
    parseResponse "not json at all" = Except.ok defaultRecordJson ∧
      parseResponse "\x7boops\x7d" = Except.error jsonSyntaxErrorMsg :=
  ⟨(c1_parse_total_unless_invalid_block "not json at all").1 rfl rfl,
    (c1_parse_total_unless_invalid_block "\x7boops\x7d").2 "\x7boops\x7d" rfl rfl rfl⟩

/-- C4 counterexample: two overlapping submits (documents `1` then `2`, both
through the unguarded drop path), where document `1`'s response settles after
document `2`'s completion chunk has run.  Program order is respected
(each submit chunk precedes its own completion chunk) yet the final published
record is the first call's `"A"`, not the second call's `"B"`: the
late-arriving superseded response is published and overwrites the second
call's result, because no cancellation or request-generation tracking
exists. -/
theorem c4_late_response_overwrites :
    (runTrace initialState
        (submitChunk 1 ++ submitChunk 2 ++
          finishChunk 2 (Except.ok (Json.str "B")) ++
          finishChunk 1 (Except.ok (Json.str "A")))).result =
        some (Json.str "A") ∧
      Json.str "A" ≠ Json.str "B" := by
  refine ⟨rfl, fun h => ?_⟩
  injection h with h'
  exact absurd h' (by decide)

/-- C4 amended: the published result is that of whichever call's completion
chunk runs last.  The second call's result is the one published when the
first call's response settles before the second call's does (in particular
when the two submits do not overlap at all); a first response settling after
the second call's completion overwrites it instead. -/
theorem c4_second_result_when_first_settles_earlier (st : UIState) (f₁ f₂ : Nat)
    (o₁ : Except String Json) (v₂ : Json) :
    (runTrace st
        (submitChunk f₁ ++ finishChunk f₁ o₁ ++ submitChunk f₂ ++
          finishChunk f₂ (Except.ok v₂))).result = some v₂ ∧
      (runTrace st
        (submitChunk f₁ ++ submitChunk f₂ ++ finishChunk f₁ o₁ ++
          finishChunk f₂ (Except.ok v₂))).result = some v₂ := by
  constructor <;>
    simp [runTrace, List.foldl_append, finishChunk, applySetter]

/-- C5 counterexample: submitting the locked document first with no password
(pdf.js throws `"No password given"`, the PasswordRequired case) and then with
a wrong password (pdf.js throws `"Incorrect Password"`, the PasswordIncorrect
case) leaves the *identical* displayed message both times — the fixed string
of line 131.  The state is the same, but the displayed reason does not differ
between the two cases, contrary to the claim. -/
theorem c5_same_message_counterexample :
    stAfterRequired.error = pwPromptMsg ∧
      stAfterIncorrect.error = pwPromptMsg ∧
      stAfterRequired.error = stAfterIncorrect.error ∧
      viewState stAfterRequired = PipelineState.AwaitingCredential ∧
      viewState stAfterIncorrect = PipelineState.AwaitingCredential :=
  ⟨rfl, rfl, rfl, rfl, rfl⟩

/-- C5 amended: on entry to the password-prompt state the displayed message is
the same fixed string `"This PDF is password protected. Please enter the
correct password below."` for every credential-related error — the code does
not distinguish a first PasswordRequired error from a later PasswordIncorrect
error. -/
theorem c5_password_message_identical (e : Env) (f : Nat) (pw : Option String)
    (st : UIState) (m : String)
    (h1 : e.extract f (pw.getD "") = Except.error m)
    (h2 : containsPasswordCI m = true) :
    (parsePDF e f pw st).error = pwPromptMsg ∧
      viewState (parsePDF e f pw st) = PipelineState.AwaitingCredential := by
  simp [parsePDF, pipelineOutcome, h1, finishChunk, h2, preChunk, runTrace,
    applySetter, viewState]

/-- Witness for the amended C5 at the locked-document environment. -/
theorem c5_password_message_identical_witness :
    (parsePDF envLockedDoc 0 none initialState).error = pwPromptMsg :=
  (c5_password_message_identical envLockedDoc 0 none initialState
    "No password given" rfl rfl).1

/-- C10: classification of a thrown pipeline error by message substring.  Any
error whose message contains `"password"` case-insensitively — from document
decoding, the model-client call, or parsing — routes to the password-prompt
state with the current file retained for retry; every other error routes to
`Failed`, displaying the error's message when it is non-empty and the generic
`"Failed to parse PDF"` when it is empty (the `err.message || ...` fallback of
line 133). -/
theorem c10_password_substring_classification (e : Env) (f : Nat)
    (pw : Option String) (st : UIState) (m : String)
    (h : pipelineOutcome e f pw = Except.error m) :
    (containsPasswordCI m = true →
      (parsePDF e f pw st).needsPassword = true ∧
        (parsePDF e f pw st).pendingFile = some f ∧
        (parsePDF e f pw st).error = pwPromptMsg ∧
        viewState (parsePDF e f pw st) = PipelineState.AwaitingCredential) ∧
      (containsPasswordCI m = false →
        (parsePDF e f pw st).error = (if m = "" then "Failed to parse PDF" else m) ∧
          viewState (parsePDF e f pw st) = PipelineState.Failed) := by
  constructor
  · intro hm
    simp [parsePDF, h, finishChunk, hm, preChunk, runTrace, applySetter, viewState]
  · intro hm
    by_cases he : m = ""
    · subst he
      simp [parsePDF, h, finishChunk, hm, preChunk, runTrace, applySetter, viewState]
    · simp [parsePDF, h, finishChunk, hm, he, preChunk, runTrace, applySetter, viewState]

/-- Witness for C10: a model-client error unrelated to document locking but
mentioning `PASSWORD` routes to the password prompt with the file retained. -/
theorem c10_password_substring_classification_witness :
    (parsePDF envBackendPw 0 none initialState).needsPassword = true ∧
      (parsePDF envBackendPw 0 none initialState).pendingFile = some 0 :=
  ⟨((c10_password_substring_classification envBackendPw 0 none initialState
      "backend rejected the supplied PASSWORD token" rfl).1 rfl).1,
    ((c10_password_substring_classification envBackendPw 0 none initialState
      "backend rejected the supplied PASSWORD token" rfl).1 rfl).2.1⟩

/-- C10 counterexample: an error thrown with the empty message enters `Failed`
displaying the generic `"Failed to parse PDF"`, not the error's message. -/
theorem c10_empty_message_counterexample :
    pipelineOutcome envEmptyMsg 0 none = Except.error "" ∧
      (parsePDF envEmptyMsg 0 none initialState).error = "Failed to parse PDF" ∧
      "Failed to parse PDF" ≠ ("" : String) :=
  ⟨rfl, rfl, by decide⟩

/-- C9 counterexample: for a two-page document with page texts `"a"` and
`"b"`, the extractor returns `"a\nb\n"` — each page newline-*terminated*
(`out += pageText + '\n'`) — whereas joining with a page-break separator
*between* pages gives `"a\nb"`.  The two differ, so the claim's description
of the output shape is wrong. -/
theorem c9_trailing_newline_counterexample :
    extractPdfText [["a"], ["b"]] = "a\nb\n" ∧
      specSeparatorJoin [["a"], ["b"]] = "a\nb" ∧
      extractPdfText [["a"], ["b"]] ≠ specSeparatorJoin [["a"], ["b"]] :=
  ⟨rfl, rfl, by decide⟩

/-- C9 amended: the extractor returns the decoded text of at most the first 3
pages in page order (all pages when the document has fewer than 3), with each
page's text *followed* by a page break — i.e. the separator-joined text plus a
trailing page break whenever there is at least one page. -/
theorem c9_pages_newline_terminated (pages : List (List String)) :
    extractPdfText pages =
      specSeparatorJoin pages ++ (if (pages.take 3).isEmpty then "" else "\n") := by
  match pages with
  | [] => rfl
  | [a] =>
    simp [extractPdfText, specSeparatorJoin, joinWith, strEmptyAppend, strAppendAssoc]
  | [a, b] =>
    simp [extractPdfText, specSeparatorJoin, joinWith, strEmptyAppend, strAppendAssoc]
  | [a, b, c] =>
    simp [extractPdfText, specSeparatorJoin, joinWith, strEmptyAppend, strAppendAssoc]
  | a :: b :: c :: d :: rest =>
    simp [extractPdfText, specSeparatorJoin, joinWith, strEmptyAppend, strAppendAssoc]

/-- C3: when the extractor reports a credential-related error on submit, the
controller passes through `Extracting` (the synchronous head of `parsePDF`)
into `AwaitingCredential`, retaining the submitted file in `pendingFile`; a
subsequent password-form submission with the correct credential re-runs the
pipeline on that retained file — no re-upload — and reaches `Succeeded`,
publishing the parsed record. -/
theorem c3_password_retry_reaches_success (e : Env) (f : Nat) (st₀ : UIState)
    (m text raw pw k : String) (v : Json)
    (hm : e.extract f "" = Except.error m) (hpw : containsPasswordCI m = true)
    (hne : pw ≠ "") (hok : e.extract f pw = Except.ok text)
    (hkey : e.apiKey = some k) (hk : k ≠ "")
    (hai : e.callAI (buildPrompt text) = Except.ok raw)
    (hparse : parseResponse raw = Except.ok v) :
    viewState (runTrace st₀ preChunk) = PipelineState.Extracting ∧
      viewState (parsePDF e f none st₀) = PipelineState.AwaitingCredential ∧
      (parsePDF e f none st₀).pendingFile = some f ∧
      viewState (handlePasswordSubmit e { parsePDF e f none st₀ with password := pw }) =
        PipelineState.Succeeded ∧
      (handlePasswordSubmit e { parsePDF e f none st₀ with password := pw }).result =
        some v := by
  have hout1 : pipelineOutcome e f none = Except.error m := by
    simp [pipelineOutcome, hm]
  have hout2 : pipelineOutcome e f (some pw) = Except.ok v := by
    simp [pipelineOutcome, hok, callOpenAI, hkey, hk, hai, hparse]
  have hpf : ({ parsePDF e f none st₀ with password := pw } : UIState).pendingFile =
      some f := by
    simp [parsePDF, hout1, finishChunk, hpw, preChunk, runTrace, applySetter]
  have hpass : ({ parsePDF e f none st₀ with password := pw } : UIState).password = pw :=
    rfl
  refine ⟨?_, ?_, ?_, ?_, ?_⟩
  · simp [runTrace, preChunk, applySetter, viewState]
  · simp [parsePDF, hout1, finishChunk, hpw, preChunk, runTrace, applySetter, viewState]
  · simp [parsePDF, hout1, finishChunk, hpw, preChunk, runTrace, applySetter]
  · rw [handlePasswordSubmit, hpf, hpass]
    simp [hne, parsePDF, hout2, finishChunk, preChunk, runTrace, applySetter, viewState]
  · rw [handlePasswordSubmit, hpf, hpass]
    simp [parsePDF, hout2, finishChunk, preChunk, runTrace, applySetter, hne]

/-- Witness for C3: the locked document with correct password `"secret"`; the
model answers the empty JSON object, which is published as the record. -/
theorem c3_password_retry_reaches_success_witness :
    viewState (handlePasswordSubmit envRetry
        { parsePDF envRetry 7 none initialState with password := "secret" }) =
      PipelineState.Succeeded :=
  (c3_password_retry_reaches_success envRetry 7 initialState
    "No password given" "statement text" "\x7b\x7d" "secret" "sk-test"
    (Json.obj []) rfl rfl (by decide) rfl rfl (by decide) rfl rfl).2.2.2.1

/-- Searching an appended list whose first part lacks the character finds the
character in the second part, shifted by the first part's length. -/
theorem firstIdxOf_append_of_not_mem (c : Char) (l₁ l₂ : List Char) (h : c ∉ l₁) :
    firstIdxOf c (l₁ ++ l₂) = (firstIdxOf c l₂).map (· + l₁.length) := by
  induction l₁ with
  | nil =>
    cases hfi : firstIdxOf c l₂ <;> simp [hfi]
  | cons a as ih =>
    have hac : (a == c) = false := by
      simp only [beq_eq_false_iff_ne, ne_eq]
      intro hh
      exact h (hh ▸ List.mem_cons_self a as)
    have h' : c ∉ as := fun hm => h (List.mem_cons_of_mem a hm)
    rw [List.cons_append]
    simp only [firstIdxOf, hac, Bool.false_eq_true, if_false, ih h']
    cases firstIdxOf c l₂ <;> simp [Nat.add_assoc]

/-- The greedy regex match `/\x7b[\s\S]+\x7d/` on prose-wrapped text: when the
leading prose has no `\x7b`, the trailing prose has no `\x7d`, and the middle
part is brace-delimited with at least one character inside, the match is
exactly the middle part. -/
theorem jsonSubstring_embedded (p₁ o p₂ : String)
    (h1 : '\x7b' ∉ p₁.data) (h2 : '\x7d' ∉ p₂.data)
    (h3 : o.data.head? = some '\x7b') (h4 : o.data.getLast? = some '\x7d')
    (h5 : 3 ≤ o.data.length) :
    jsonSubstring (p₁ ++ o ++ p₂) = some o := by
  obtain ⟨t, ht⟩ : ∃ t, o.data = '\x7b' :: t := by
    cases hd : o.data with
    | nil => rw [hd] at h3; cases h3
    | cons x xs =>
      rw [hd] at h3
      simp only [List.head?_cons, Option.some.injEq] at h3
      exact ⟨xs, by rw [h3]⟩
  obtain ⟨r, hr⟩ : ∃ r, o.data.reverse = '\x7d' :: r := by
    cases hd : o.data.reverse with
    | nil =>
      rw [← List.head?_reverse, hd] at h4; cases h4
    | cons x xs =>
      rw [← List.head?_reverse, hd] at h4
      simp only [List.head?_cons, Option.some.injEq] at h4
      exact ⟨xs, by rw [h4]⟩
  have hdata : (p₁ ++ o ++ p₂).data = p₁.data ++ (o.data ++ p₂.data) := by
    rw [strDataAppend, strDataAppend, List.append_assoc]
  have h2' : '\x7d' ∉ p₂.data.reverse := fun hm => h2 (List.mem_reverse.mp hm)
  have hfirst : firstIdxOf '\x7b' (p₁ ++ o ++ p₂).data = some p₁.data.length := by
    rw [hdata, firstIdxOf_append_of_not_mem _ _ _ h1, ht]
    simp [firstIdxOf]
  have hlast : lastIdxOf '\x7d' (p₁ ++ o ++ p₂).data =
      some (p₁.data.length + o.data.length - 1) := by
    rw [lastIdxOf, hdata]
    have hrev : (p₁.data ++ (o.data ++ p₂.data)).reverse =
        p₂.data.reverse ++ (o.data.reverse ++ p₁.data.reverse) := by
      simp [List.reverse_append]
    rw [hrev, firstIdxOf_append_of_not_mem _ _ _ h2', hr]
    simp only [firstIdxOf, beq_self_eq_true, if_true, Option.map_some']
    simp only [List.length_append, List.length_reverse, Option.map_some']
    congr 1
    omega
  rw [jsonSubstring, hfirst, hlast]
  have hcond : p₁.data.length + 2 ≤ p₁.data.length + o.data.length - 1 := by omega
  dsimp only
  rw [if_pos hcond, hdata, List.drop_left]
  have harith : p₁.data.length + o.data.length - 1 - p₁.data.length + 1 =
      o.data.length := by omega
  rw [harith, List.take_left]

/-- C6: when whole-text `JSON.parse` of the response fails, the regex takes
the substring from the first `\x7b` to the last `\x7d` (inclusive) and parses
it; hence for a response consisting of a valid JSON object surrounded by
extra prose (no `\x7b` before it, no `\x7d` after it), parse returns exactly
the record encoded by the embedded object, ignoring the prose. -/
theorem c6_embedded_object_recovered (p₁ o p₂ : String) (v : Json)
    (hwhole : jsonParse (p₁ ++ o ++ p₂) = none)
    (h1 : '\x7b' ∉ p₁.data) (h2 : '\x7d' ∉ p₂.data)
    (h3 : o.data.head? = some '\x7b') (h4 : o.data.getLast? = some '\x7d')
    (h5 : 3 ≤ o.data.length)
    (hobj : jsonParse o = some v) :
    parseResponse (p₁ ++ o ++ p₂) = Except.ok v := by
  simp [parseResponse, hwhole, jsonSubstring_embedded p₁ o p₂ h1 h2 h3 h4 h5, hobj]

set_option maxRecDepth 100000 in
/-- Witness for C6: the spec's §8 example — the six-field Chase object wrapped
in prose is recovered exactly. -/
theorem c6_embedded_object_recovered_witness :
    parseResponse (prosePre ++ chaseObjText ++ prosePost) = Except.ok chaseObj :=
  c6_embedded_object_recovered prosePre chaseObjText prosePost chaseObj rfl
    (by decide) (by decide) rfl rfl (by decide) rfl

end CCP
